import Mathlib

/-!
Verification development for `src/src/main/radsnmp.c` (the radsnmp
SNMP-to-RADIUS bridge).  The development shallowly embeds the three core
components of the program:

* the Path Codec `radsnmp_pair_from_oid` (radsnmp.c lines 184-321),
* the Varbind Formatter `radsnmp_get_response` (lines 343-511) together
  with `radsnmp_set_response` (lines 525-561),
* the Session Loop `radsnmp_send_recv` (lines 563-816) and the request
  allocator `radsnmp_alloc` (lines 139-155).

External library functions that radsnmp.c calls but whose code is not part
of this repository snapshot (the dictionary lookups `fr_dict_attr_by_oid`,
`fr_dict_attr_child_by_num`, `fr_dict_parent_common`, the OID lexer
`fr_dict_oid_component`, the value parser `fr_pair_value_from_str`, and the
pair-cursor helpers `fr_cursor_*`) are modelled from the specification's
description of their behaviour; each such definition is marked
`Modelled from the spec:` in its doc comment.

Representation choices:

* OID path strings are represented by their list of numeric components
  (the lexer living in the external dictionary library); a small
  spec-modelled lexer `parseOidComps` maps the line-protocol strings to
  component lists for the Session Loop model.
* Dictionary tree nodes for the Path Codec are an inductive tree
  `DictAttr`; for the Varbind Formatter a node is identified by its
  absolute OID path plus its declared type (`FmtDa`), which models the C
  `fr_dict_attr_t` parent pointers and pointer equality.
* Machine I/O on the control channel is modelled as a list of emitted
  events; writes are assumed to succeed (write(2) failures are an
  orthogonal fatal path).  Fixed C buffer capacities (the 256-byte OID
  buffer, 32-byte type buffer) are not modelled except for the 128-byte
  value buffer check which radsnmp performs explicitly with
  `is_truncated`.
-/

namespace Radsnmp

/-- Value kinds of dictionary attributes as used by radsnmp.c:
`PW_TYPE_INTEGER`, `PW_TYPE_STRING`, `PW_TYPE_OCTETS`, `PW_TYPE_TLV`
(the nested-group kind), and a collective constructor for every other
scalar type. -/
inductive PWType where
  | integer
  | string
  | octets
  | tlv
  | other
deriving DecidableEq

/-- A dictionary attribute node: numeric id, declared type, children
addressable by numeric id.  This is the read-only attribute tree the
Path Codec walks (`fr_dict_attr_t`). -/
inductive DictAttr where
  | mk (attr : Nat) (ptype : PWType) (children : List DictAttr)

/-- Numeric id of a dictionary node. -/
def DictAttr.attrOf : DictAttr → Nat
  | .mk a _ _ => a

/-- Declared type of a dictionary node. -/
def DictAttr.ptypeOf : DictAttr → PWType
  | .mk _ t _ => t

/-- Children of a dictionary node. -/
def DictAttr.childrenOf : DictAttr → List DictAttr
  | .mk _ _ c => c

/-- Modelled from the spec: the external dictionary child lookup
`fr_dict_attr_child_by_num(parent, n)` — "a dictionary exposing, for any
starting node and a numeric child id, the child node". -/
def fr_dict_attr_child_by_num (parent : DictAttr) (n : Nat) : Option DictAttr :=
  parent.childrenOf.find? (fun c => c.attrOf == n)

/-- Result of `fr_dict_attr_by_oid`:
* `ok parent attr consumed` — every component before the last resolved as
  a direct child (descending), the last component is returned in `attr`
  without being looked up, `parent` is the node containing it, and
  `consumed` components were read;
* `failEmpty` — no component could be read at all (`slen = 0`);
* `fail parent attr rest pos` — the intermediate component `attr` at
  component offset `pos` is not a child of the deepest resolved node
  `parent`; `rest` are the components after the failing one (the cursor
  is advanced past the unresolved component and the separating dot). -/
inductive ByOidRes where
  | ok (parent : DictAttr) (attr : Nat) (consumed : Nat)
  | failEmpty (parent : DictAttr)
  | fail (parent : DictAttr) (attr : Nat) (rest : List Nat) (pos : Nat)

/-- Modelled from the spec: the external dictionary resolver
`fr_dict_attr_by_oid(dict, &parent, NULL, &attr, p)` — "repeatedly
attempt to resolve the next path segment(s) as a direct numeric child id
of the current node.  If resolution succeeds ... the resolved node
together with the last-consumed numeric id becomes the candidate leaf
(attr/parent pair).  If resolution fails at an offset, advance the cursor
past the unresolved numeric component (this number is the table index)".
The out-parameter `parent` is updated while descending, so on failure it
holds the deepest resolved node; `attr` holds the failing component
(radsnmp.c line 216 asserts exactly this). -/
def fr_dict_attr_by_oid (parent : DictAttr) : List Nat → ByOidRes
  | [] => .failEmpty parent
  | [a] => .ok parent a 1
  | a :: b :: rest =>
    match fr_dict_attr_child_by_num parent a with
    | none => .fail parent a (b :: rest) 0
    | some child =>
      match fr_dict_attr_by_oid child (b :: rest) with
      | .ok p at_ c => .ok p at_ (c + 1)
      | .failEmpty p => .failEmpty p
      | .fail p at_ r pos => .fail p at_ r (pos + 1)

/-- The distinct parse-failure causes the Path Codec reports through
`fr_strerror_printf` (radsnmp.c lines 224, 229, 238, 246, 278, 286, 292,
and the resolver's own message for an unparsable/unknown component). -/
inductive CodecCause where
  | badOidComponent      -- resolver failed and no further component available
  | noIndexAttr          -- "Unknown OID component: No index attribute at this level"
  | indexNotInteger      -- "Index is not a \"integer\""
  | noEntryAttr          -- "Unknown OID component: No entry attribute at this level"
  | entryNotTlv          -- "Entry is not \"tlv\""
  | unknownLeaf          -- "Unknown leaf attribute %i"
  | leafIsTlv            -- "OID must specify a leaf, ... is a \"tlv\""
deriving DecidableEq

/-- A parse error: its cause plus the (component-granularity) offset that
the negative return value of the codec encodes. -/
structure CodecErr where
  cause : CodecCause
  pos : Nat
deriving DecidableEq

/-- Scalar payload of a `VALUE_PAIR`. -/
inductive VpValue where
  | vInteger (n : Nat)
  | vString (bytes : List Nat)
  | vOctets (bytes : List Nat)
  | vZero
deriving DecidableEq

/-- A tree-positioned value (`VALUE_PAIR`): the dictionary node it is
tagged with and its payload. -/
structure VP where
  da : DictAttr
  value : VpValue

/-- The negative/zero return value (`slen`) that radsnmp_pair_from_oid
produces for a parse error: minus the failure offset. -/
def errSlen (e : CodecErr) : Int := -(Int.ofNat e.pos)

/-- The index-discovery loop of `radsnmp_pair_from_oid`
(radsnmp.c lines 208-258): resolve as far as possible; when an
intermediate component is unknown, require a numeric-id-0 child of
`PW_TYPE_INTEGER` (the index attribute) and a numeric-id-1 child of
`PW_TYPE_TLV` (the entry), emit an Index value carrying the index
attribute node and the unresolved component, descend into the entry and
repeat.  On success returns the emitted Index values in insertion order,
the final `parent`/`attr` candidate-leaf pair, and the component count
consumed by the final resolver call (the C `slen` that the function
ultimately returns).  The first argument is fuel, kept strictly above
the remaining component count by `oidLoop` below, so the fuel-exhausted
branch is unreachable. -/
def oidLoopF : Nat → DictAttr → List Nat →
    Except CodecErr (List VP × DictAttr × Nat × Nat)
  | 0, _, _ => .error ⟨.badOidComponent, 0⟩
  | fuel + 1, parent, comps =>
    match fr_dict_attr_by_oid parent comps with
    | .ok p a consumed => .ok ([], p, a, consumed)
    | .failEmpty _ => .error ⟨.badOidComponent, 0⟩
    | .fail p a rest pos =>
      match fr_dict_attr_child_by_num p 0 with
      | none => .error ⟨.noIndexAttr, pos⟩
      | some idxA =>
        if idxA.ptypeOf ≠ PWType.integer then .error ⟨.indexNotInteger, pos⟩
        else
          match fr_dict_attr_child_by_num p 1 with
          | none => .error ⟨.noEntryAttr, pos⟩
          | some entry =>
            if entry.ptypeOf ≠ PWType.tlv then .error ⟨.entryNotTlv, pos⟩
            else
              match oidLoopF fuel entry rest with
              | .error e => .error e
              | .ok (vps, p2, a2, c2) => .ok (⟨idxA, .vInteger a⟩ :: vps, p2, a2, c2)

/-- The index-discovery loop at its natural fuel.  Every iteration
consumes at least the one failing component, so `comps.length + 1` fuel
is never exhausted (`oidLoopF_irrel` below). -/
def oidLoop (parent : DictAttr) (comps : List Nat) :
    Except CodecErr (List VP × DictAttr × Nat × Nat) :=
  oidLoopF (comps.length + 1) parent comps

/-- The kind-appropriate empty placeholder built when no value string was
supplied (radsnmp.c lines 296-314): one zero byte for string/octets
kinds, zero value otherwise (`fr_pair_afrom_da` zero-initialises the
pair). -/
def pairPlaceholder (t : PWType) : VpValue :=
  match t with
  | .string => .vString [0]
  | .octets => .vOctets [0]
  | .integer => .vInteger 0
  | _ => .vZero

/-- Decimal digits to a number; `none` when empty or non-digit. -/
def charsToNat? (cs : List Char) : Option Nat :=
  if cs.isEmpty then none
  else if cs.all (fun c => c.isDigit) then
    some (cs.foldl (fun n c => n * 10 + (c.toNat - 48)) 0)
  else none

/-- Modelled from the spec: the external value parser
`fr_pair_value_from_str` — "parse it according to the leaf's declared
kind, failing with a parse error on type mismatch".  Integer kinds accept
decimal digit strings; string/octets kinds accept any bytes; other
scalar kinds and groups are modelled as not parsable from a string. -/
def fr_pair_value_from_str (t : PWType) (s : String) : Option VpValue :=
  match t with
  | .integer => (charsToNat? s.toList).map VpValue.vInteger
  | .string => some (.vString (s.toList.map Char.toNat))
  | .octets => some (.vOctets (s.toList.map Char.toNat))
  | _ => none

/-- Leaf-node selection once the candidate `(parent, attr)` pair is
established (radsnmp.c lines 275-283): attr 0 selects `parent` itself,
otherwise the numeric-`attr` child of `parent` (absent child yields
`none`, the "Unknown leaf attribute" error). -/
def snmpLeafDa (parent : DictAttr) (attr : Nat) : Option DictAttr :=
  if attr ≠ 0 then fr_dict_attr_child_by_num parent attr else some parent

/-- The Path Codec `radsnmp_pair_from_oid` (radsnmp.c lines 184-321) over
an already-lexed component list.  `cursorIn` is the caller's value list
that the `vp_cursor_t` points into (the cursor is positioned at its end
on entry, line 195).  Returns the resulting value list together with the
`ssize_t` result.  Modelled from the spec where external code decides
behaviour: `fr_cursor_free` on the `error` label (lines 263-267 and the
`goto error` at line 316) removes the values this call inserted, per the
cursor library's documented pairing with `fr_cursor_end`/`fr_cursor_insert`.
Note the faithful quirks of the source:
* the "Unknown leaf attribute" and leaf-is-tlv error paths (lines
  275-288) return `-(slen)` *without* freeing, so Index values inserted
  during index discovery remain in the caller's list;
* the value-parse failure path (line 316) jumps to `error`, which frees
  the inserted values but returns the stale *positive* `slen`. -/
def radsnmp_pair_from_oid (cursorIn : List VP) (parent : DictAttr)
    (oid : List Nat) (value : Option String) : List VP × Int :=
  match oidLoop parent oid with
  | .error e => (cursorIn, errSlen e)
  | .ok (idxVps, p, attr, consumed) =>
    match snmpLeafDa p attr with
    | none => (cursorIn ++ idxVps, -(Int.ofNat consumed))
    | some da =>
      if da.ptypeOf = PWType.tlv then (cursorIn ++ idxVps, -(Int.ofNat consumed))
      else
        match value with
        | none =>
          (cursorIn ++ idxVps ++ [⟨da, pairPlaceholder da.ptypeOf⟩], Int.ofNat consumed)
        | some v =>
          match fr_pair_value_from_str da.ptypeOf v with
          | none => (cursorIn, Int.ofNat consumed)
          | some pv => (cursorIn ++ idxVps ++ [⟨da, pv⟩], Int.ofNat consumed)

/-! ## Varbind Formatter (`radsnmp_get_response`, radsnmp.c lines 343-511)

For the inverse direction a dictionary node is identified by its absolute
OID path from the dictionary root together with its declared type; this
models the `fr_dict_attr_t` pointer graph (`da->parent` is the node one
path component shorter, pointer equality is path+type equality). -/

/-- A dictionary-node reference as the Formatter sees it. -/
structure FmtDa where
  path : List Nat
  ptype : PWType
deriving DecidableEq

/-- `da->attr`: the node's own numeric id (last path component). -/
def FmtDa.attrOf (d : FmtDa) : Nat := d.path.getLastD 0

/-- `da->parent`'s path. -/
def FmtDa.parentPath (d : FmtDa) : List Nat := d.path.dropLast

/-- Scalar payload of a reply `VALUE_PAIR` as the Formatter reads it. -/
inductive FmtVal where
  | fInt (n : Nat)
  | fBytes (bs : List Nat)
  | fOther
deriving DecidableEq

/-- A reply value: node reference plus payload. -/
structure FmtVP where
  da : FmtDa
  value : FmtVal
deriving DecidableEq

/-- Modelled from the spec: `fr_dict_parent_common(a, b, true) != NULL`,
the strict-descendant test — "a value not rooted under root (no ancestor
relationship) is skipped" / "a value whose node is not a descendant of
the current parent cursor".  `a` must be a proper ancestor of `b`, i.e.
`a`'s path a proper prefix of `b`'s. -/
def listIsAncestor : List Nat → List Nat → Bool
  | [], [] => false
  | [], _ :: _ => true
  | _ :: _, [] => false
  | a :: as, b :: bs => a == b && listIsAncestor as bs

/-- Modelled from the spec: `dict_print_attr_oid(buf, len, ancestor, da)`
— renders the dotted path of `da` relative to `ancestor`; at component
granularity this is the path with the ancestor's prefix dropped. -/
def relOid (ancestor daPath : List Nat) : List Nat := daPath.drop ancestor.length

/-- `fr_pair_value_snprint`: text rendering of a scalar value (used for
the out-of-band type pair and for non-string leaf values). -/
def renderScalar : FmtVal → String
  | .fInt n => toString n
  | .fBytes _ => ""
  | .fOther => ""

/-- `vp->vp_integer`: raw integer read of the payload. -/
def vpInt : FmtVal → Nat
  | .fInt n => n
  | _ => 0

/-- `vp->vp_strvalue`/`vp_length`: raw byte read of the payload. -/
def vpBytes : FmtVal → List Nat
  | .fBytes bs => bs
  | _ => []

/-- What is written for a single varbind's value line: raw bytes
verbatim (octets/string kinds) or rendered text (other kinds). -/
inductive VbOut where
  | raw (bs : List Nat)
  | text (s : String)
deriving DecidableEq

/-- One unit written to the control channel: a varbind (three lines —
path, type, value, radsnmp.c lines 454-491) or a fixed single-line token
(`NONE`, `PONG`, `DONE`, rendered set-error text). -/
inductive FmtOut where
  | varbind (oid : List Nat) (typeTag : String) (value : VbOut)
  | line (s : String)
deriving DecidableEq

/-- The leaf value serialisation of radsnmp.c lines 463-483: octets and
string kinds pass their raw bytes through; every other kind renders
through `fr_pair_value_snprint` into the 128-byte `value_buff`, with
`is_truncated(len, 128)` a fatal error (`none`). -/
def fmtLeafValue (vp : FmtVP) : Option VbOut :=
  match vp.da.ptype with
  | PWType.octets => some (.raw (vpBytes vp.value))
  | PWType.string => some (.raw (vpBytes vp.value))
  | _ =>
    let s := renderScalar vp.value
    if 128 ≤ s.length then none else some (.text s)

/-- The iteration of `radsnmp_get_response` (radsnmp.c lines 373-503).
State: remaining reply values, the mutable `parent` cursor (a path,
initialised to root), the OID accumulator `oid_buff` (a component list),
the held type tag `type_buff` with its separately-tracked length
`type_len`, and the `written` count.  Returns the control-channel output
produced from this point on, and the C return value (`written`, or `-1`
for a fatal formatter error).  Faithful quirks of the source:
* varbinds already written stay written when a later value errors
  (the `writev` happens per varbind);
* the per-varbind reset (lines 499-502) clears `type_buff` but not
  `type_len`, so the missing-type check (line 444) only fires before the
  first varbind. -/
def grGo (root ty : FmtDa) : List FmtVP → List Nat → List Nat → String → Nat → Nat →
    List FmtOut × Int
  | [], _, _, _, _, written =>
    if written = 0 then ([FmtOut.line "NONE"], 0) else ([], Int.ofNat written)
  | vp :: rest, parentP, oidAcc, typeBuff, typeLen, written =>
    if vp.da = ty then
      -- lines 381-384: the out-of-band type marker updates the type tag
      grGo root ty rest parentP oidAcc (renderScalar vp.value)
        (renderScalar vp.value).length written
    else if ¬ listIsAncestor root.path vp.da.path then
      -- line 389: values not beneath root are skipped
      grGo root ty rest parentP oidAcc typeBuff typeLen written
    else if ¬ listIsAncestor parentP vp.da.path then
      -- lines 395-400: "Out of order index attributes" — fatal
      ([], -1)
    else if vp.da.attrOf = 0 then
      -- lines 405-436: index attribute
      if vp.da.ptype ≠ PWType.integer then ([], -1)
      else
        grGo root ty rest vp.da.parentPath
          (oidAcc ++ relOid parentP vp.da.parentPath ++ [vpInt vp.value])
          typeBuff typeLen written
    else if typeLen = 0 then
      -- lines 444-447: "No FreeRADIUS-SNMP-Type found in response, or
      -- occurred after value attribute" — fatal
      ([], -1)
    else
      match fmtLeafValue vp with
      | none => ([], -1)
      | some v =>
        let vb := FmtOut.varbind (oidAcc ++ relOid parentP vp.da.path) typeBuff v
        let r := grGo root ty rest root.path [] "" typeLen (written + 1)
        (vb :: r.1, r.2)

/-- The Varbind Formatter `radsnmp_get_response` (radsnmp.c lines
343-511): iterate the reply list from the initial state; if the
iteration completes having written no varbind, write the fixed `NONE`
token and return 0. -/
def radsnmp_get_response (root ty : FmtDa) (head : List FmtVP) : List FmtOut × Int :=
  grGo root ty head root.path [] "" 0 0

/-- Number of varbinds in an output list. -/
def countVb : List FmtOut → Nat
  | [] => 0
  | FmtOut.varbind _ _ _ :: rest => countVb rest + 1
  | FmtOut.line _ :: rest => countVb rest

/-- `radsnmp_set_response` (radsnmp.c lines 525-561): write `DONE` unless
the reply carries the error attribute, in which case write that value's
rendered text. -/
def radsnmp_set_response (errA : FmtDa) (vps : List FmtVP) : List FmtOut :=
  match vps.find? (fun vp => vp.da == errA) with
  | none => [FmtOut.line "DONE"]
  | some vp => [FmtOut.line (renderScalar vp.value)]

/-! ## Session Loop (`radsnmp_send_recv`, radsnmp.c lines 563-816) and
request allocation (`radsnmp_alloc`, lines 139-155). -/

/-- The command set of the pass_persist line protocol
(`radsnmp_command_t` / `radsnmp_command_str`, radsnmp.c lines 57-73). -/
inductive RadsnmpCommand where
  | unknown
  | ping
  | get
  | getnext
  | set
  | exitCmd
deriving DecidableEq

/-- `fr_str2int(radsnmp_command_str, line, RADSNMP_UNKNOWN)`: the command
table lookup, in table order. -/
def strToCommand (s : String) : RadsnmpCommand :=
  if s = "PING" then .ping
  else if s = "get" then .get
  else if s = "getnext" then .getnext
  else if s = "set" then .set
  else if s = "" then .exitCmd
  else .unknown

/-- Split a character list on dots (helper for the OID lexer). -/
def splitDots : List Char → List (List Char)
  | [] => [[]]
  | c :: rest =>
    let r := splitDots rest
    if c = '.' then [] :: r
    else
      match r with
      | g :: gs => (c :: g) :: gs
      | [] => [[c]]

/-- Modelled from the spec: the OID lexer (`fr_dict_oid_component` inside
the external resolver) — "optional leading `.`, then `.`-separated
non-negative integers".  `none` when some segment is not a number; the
component-level codec then reports a parse error, matching the
resolver's non-positive return. -/
def parseOidComps (s : String) : Option (List Nat) :=
  let parts := splitDots s.toList
  let parts :=
    match parts with
    | [] :: rest => rest
    | ps => ps
  parts.mapM charsToNat?

/-- The Path Codec applied to a raw OID line as the Session Loop does:
lex, then run `radsnmp_pair_from_oid`.  A lexically bad line yields the
resolver's non-positive `slen` (modelled as 0, matching the C slen for a
failure at the first character). -/
def pairFromOidStr (tree : DictAttr) (line : String) (value : Option String) :
    List VP × Int :=
  match parseOidComps line with
  | none => ([], 0)
  | some comps => radsnmp_pair_from_oid [] tree comps value

/-- The slice of `radsnmp_conf_t` the Session Loop mutates or reads per
iteration: the wrapping 1-byte request id and the retry limit. -/
structure Conf where
  last_used_id : Nat
  retries : Nat
deriving DecidableEq

/-- The freshly allocated request (only its id matters here). -/
structure RadReq where
  id : Nat
deriving DecidableEq

/-- `radsnmp_alloc` (radsnmp.c lines 139-155): the request takes the
current `last_used_id`, which is then advanced with wrap
(`(conf->last_used_id + 1) & UINT8_MAX`, i.e. mod 256). -/
def radsnmp_alloc (conf : Conf) : RadReq × Conf :=
  (⟨conf.last_used_id⟩, { conf with last_used_id := (conf.last_used_id + 1) % 256 })

/-- `n` successive request allocations. -/
def allocIter : Nat → Conf → Conf
  | 0, c => c
  | n + 1, c => allocIter n (radsnmp_alloc c).2

/-- Result of running the Session Loop on a command script: the process
exit code, the control-channel output, the stdin lines left unread when
the loop returned, and the final configuration state. -/
structure SendRecvResult where
  exitCode : Nat
  events : List FmtOut
  leftover : List String
  conf : Conf
deriving DecidableEq

/-- One-command-per-iteration body of `radsnmp_send_recv` (radsnmp.c
lines 582-813), driven by a fuel counter that the wrapper sets larger
than the script so it is never exhausted (every iteration consumes at
least one stdin line).  `stop` is never requested in the runs modelled
here (signals are external).  Faithful to the source as written:

* a request is allocated (advancing `last_used_id`) before the command
  line is read (lines 597-604), for every iteration including `PING`,
  unknown commands, and the final empty command;
* an empty command line exits with status 0 (lines 611-613);
* `PING` answers `PONG` and continues, an unrecognised command answers
  `NONE` and continues (lines 615-617, 636-641);
* a Path Codec failure (`slen <= 0`) answers `NONE` and continues
  (lines 646-660);
* on a successful parse the loop hits the unconditional `break` at line
  661 and `radsnmp_send_recv` returns `EXIT_SUCCESS` — the annotation
  pairs, the transport exchange, and the response rendering at lines
  663-812 are unreachable from the loop.

Exhausted stdin is modelled as a clean exit (net-snmp closes the pipe);
the theorems below only use scripts whose runs never reach that case
mid-command. -/
def sendRecvGo (tree : DictAttr) : Nat → Conf → List String → SendRecvResult
  | 0, conf, stdin => ⟨0, [], stdin, conf⟩
  | _ + 1, conf, [] => ⟨0, [], [], conf⟩
  | fuel + 1, conf, line :: rest =>
    let conf1 := (radsnmp_alloc conf).2
    match strToCommand line with
    | .exitCmd => ⟨0, [], rest, conf1⟩
    | .ping =>
      let r := sendRecvGo tree fuel conf1 rest
      ⟨r.exitCode, FmtOut.line "PONG" :: r.events, r.leftover, r.conf⟩
    | .unknown =>
      let r := sendRecvGo tree fuel conf1 rest
      ⟨r.exitCode, FmtOut.line "NONE" :: r.events, r.leftover, r.conf⟩
    | .set =>
      match rest with
      | oidLine :: valLine :: rest2 =>
        if (pairFromOidStr tree oidLine (some valLine)).2 ≤ 0 then
          let r := sendRecvGo tree fuel conf1 rest2
          ⟨r.exitCode, FmtOut.line "NONE" :: r.events, r.leftover, r.conf⟩
        else ⟨0, [], rest2, conf1⟩
      | _ => ⟨0, [], [], conf1⟩
    | _ =>
      -- RADSNMP_GET and RADSNMP_GETNEXT read one OID line
      match rest with
      | oidLine :: rest2 =>
        if (pairFromOidStr tree oidLine none).2 ≤ 0 then
          let r := sendRecvGo tree fuel conf1 rest2
          ⟨r.exitCode, FmtOut.line "NONE" :: r.events, r.leftover, r.conf⟩
        else ⟨0, [], rest2, conf1⟩
      | [] => ⟨0, [], [], conf1⟩

/-- The Session Loop `radsnmp_send_recv` over a finite stdin script. -/
def radsnmp_send_recv (tree : DictAttr) (conf : Conf) (stdin : List String) :
    SendRecvResult :=
  sendRecvGo tree (stdin.length + 1) conf stdin

/-! ## The exchange block (radsnmp.c lines 690-812)

The send/receive/respond block as written in the source (it is
unreachable from the loop, see `sendRecvGo`; it is embedded here on its
own to settle the claims about its error handling).  The transport is an
oracle assigning each retry attempt its outcome. -/

/-- Outcome of one retry attempt, as distinguished by radsnmp.c lines
726-760: `write(2)` failure, `select` failure, `select` timeout,
`rad_recv` failure, `rad_decode` failure, or a decoded reply. -/
inductive Attempt where
  | writeFail
  | selectFail
  | timeout
  | recvFail
  | decodeFail
  | reply (vps : List FmtVP)

/-- Result of the retry loop. -/
inductive RetryOut where
  | fatal                       -- immediate EXIT_FAILURE (write/select failure)
  | noReply                     -- retries exhausted, reply still NULL
  | got (vps : List FmtVP)
deriving DecidableEq

/-- The retry loop `for (i = 0; i < conf->retries; i++)` (radsnmp.c lines
725-762), with `rem` the remaining attempts and `i` the attempt index.
A timeout just retries; a receive or decode failure answers `NONE` on
the control channel and then *retries* (the `continue` under the
`recv_error` label at line 749 continues the for loop); a write or
select failure is immediately fatal; a decoded reply breaks out. -/
def retryLoop (attempts : Nat → Attempt) : Nat → Nat → List FmtOut × RetryOut
  | 0, _ => ([], .noReply)
  | rem + 1, i =>
    match attempts i with
    | .writeFail => ([], .fatal)
    | .selectFail => ([], .fatal)
    | .timeout => retryLoop attempts rem (i + 1)
    | .recvFail =>
      let r := retryLoop attempts rem (i + 1)
      (FmtOut.line "NONE" :: r.1, r.2)
    | .decodeFail =>
      let r := retryLoop attempts rem (i + 1)
      (FmtOut.line "NONE" :: r.1, r.2)
    | .reply vps => ([], .got vps)

/-- Whether the exchange block lets the session loop continue to the next
command or terminates the whole process with `EXIT_FAILURE`. -/
inductive ExchangeOutcome where
  | fatalExit
  | continueLoop
deriving DecidableEq

/-- The exchange block of `radsnmp_send_recv` (radsnmp.c lines 690-812):
run the retry loop; if no reply was obtained, `"Server didn't respond"`
and `EXIT_FAILURE` (lines 764-767); on a reply, render the response —
for get/getnext a formatter result of `-1` is `EXIT_FAILURE` (lines
783-786), otherwise the loop continues; for set, write the set response
and continue.  Returns the control-channel output and the outcome. -/
def radsnmp_exchange (root ty errA : FmtDa) (cmd : RadsnmpCommand)
    (retries : Nat) (attempts : Nat → Attempt) : List FmtOut × ExchangeOutcome :=
  match retryLoop attempts retries 0 with
  | (evs, .fatal) => (evs, .fatalExit)
  | (evs, .noReply) => (evs, .fatalExit)
  | (evs, .got vps) =>
    match cmd with
    | .set => (evs ++ radsnmp_set_response errA vps, .continueLoop)
    | .get | .getnext =>
      let r := radsnmp_get_response root ty vps
      if r.2 = -1 then (evs ++ r.1, .fatalExit)
      else (evs ++ r.1, .continueLoop)
    | _ => (evs, .fatalExit)    -- assert(0) at line 806

/-! ## Concrete sample dictionaries and states used by the evaluations -/

/-- A dictionary whose root has a single Integer leaf child numbered 1. -/
def dictGetTree : DictAttr := .mk 0 .tlv [.mk 1 .integer []]

/-- A dictionary with one table group (number 7) holding an Integer
index attribute (number 0) and an empty TLV entry (number 1). -/
def dictTableTree : DictAttr :=
  .mk 0 .tlv [.mk 7 .tlv [.mk 0 .integer [], .mk 1 .tlv []]]

/-- A dictionary whose root has a single String leaf child numbered 2. -/
def dictStrTree : DictAttr := .mk 0 .tlv [.mk 2 .string []]

/-- Sample formatter root node (`conf->snmp_oid_root`). -/
def sampleRoot : FmtDa := ⟨[1], .tlv⟩

/-- Sample out-of-band type node (`conf->snmp_type`), beside the root. -/
def sampleType : FmtDa := ⟨[9], .integer⟩

/-- Sample set-failure node (`conf->snmp_failure`). -/
def sampleErr : FmtDa := ⟨[8], .integer⟩

/-- A reply list whose second value is under the formatter root but not
under the parent cursor established by the first (index) value. -/
def outOfOrderReply : List FmtVP :=
  [⟨⟨[1, 3, 0], .integer⟩, .fInt 5⟩, ⟨⟨[1, 4, 2], .integer⟩, .fInt 7⟩]

/-! ## Helper lemmas -/

/-- A resolver failure leaves strictly fewer components to process: the
failing component itself has been consumed. -/
theorem by_oid_fail_rest_length :
    ∀ (cc : List Nat) (pp p' : DictAttr) (a' : Nat) (r' : List Nat) (q : Nat),
      fr_dict_attr_by_oid pp cc = ByOidRes.fail p' a' r' q → r'.length < cc.length := by
  intro cc
  induction cc with
  | nil =>
    intro pp p' a' r' q hcc
    simp [fr_dict_attr_by_oid] at hcc
  | cons hd tl ih =>
    intro pp p' a' r' q hcc
    cases tl with
    | nil => simp [fr_dict_attr_by_oid] at hcc
    | cons b r =>
      rw [fr_dict_attr_by_oid] at hcc
      cases hc : fr_dict_attr_child_by_num pp hd with
      | none =>
        rw [hc] at hcc
        cases hcc
        simp
      | some child =>
        rw [hc] at hcc
        simp only at hcc
        cases hr : fr_dict_attr_by_oid child (b :: r) with
        | ok p2 a2 c2 => rw [hr] at hcc; cases hcc
        | failEmpty p2 => rw [hr] at hcc; cases hcc
        | fail p2 a2 r2 q2 =>
          rw [hr] at hcc
          have hlen := ih child p2 a2 r2 q2 hr
          injection hcc with e1 e2 e3 e4
          subst e3
          simp only [List.length_cons] at *
          omega

/-- Fuel irrelevance for the index-discovery loop: any fuel strictly
above the component count gives the same result. -/
theorem oidLoopF_irrel :
    ∀ (f g : Nat) (parent : DictAttr) (comps : List Nat),
      comps.length < f → comps.length < g →
      oidLoopF f parent comps = oidLoopF g parent comps := by
  intro f
  induction f with
  | zero =>
    intro g parent comps hf _
    exact absurd hf (by omega)
  | succ f ih =>
    intro g parent comps hf hg
    cases g with
    | zero => exact absurd hg (by omega)
    | succ g =>
      rw [oidLoopF, oidLoopF]
      cases hby : fr_dict_attr_by_oid parent comps with
      | ok p a c => rfl
      | failEmpty p => rfl
      | fail p a rest pos =>
        have hrest : rest.length < comps.length :=
          by_oid_fail_rest_length comps parent p a rest pos hby
        simp only
        cases hc0 : fr_dict_attr_child_by_num p 0 with
        | none => rfl
        | some idxA =>
          simp only
          by_cases hint : idxA.ptypeOf ≠ PWType.integer
          · rw [if_pos hint, if_pos hint]
          · rw [if_neg hint, if_neg hint]
            cases hc1 : fr_dict_attr_child_by_num p 1 with
            | none => rfl
            | some entry =>
              simp only
              by_cases htlv : entry.ptypeOf ≠ PWType.tlv
              · rw [if_pos htlv, if_pos htlv]
              · rw [if_neg htlv, if_neg htlv]
                rw [ih g entry rest (by omega) (by omega)]

/-- `oidLoop` unfolds through `oidLoopF` at any sufficient fuel. -/
theorem oidLoop_eq_oidLoopF (f : Nat) (parent : DictAttr) (comps : List Nat)
    (hf : comps.length < f) : oidLoop parent comps = oidLoopF f parent comps :=
  oidLoopF_irrel (comps.length + 1) f parent comps (by omega) hf

/-- If every attempt times out, the retry loop exhausts its budget with
no reply and no control-channel output. -/
theorem retryLoop_all_timeout (attempts : Nat → Attempt)
    (h : ∀ i, attempts i = Attempt.timeout) :
    ∀ (rem i : Nat), retryLoop attempts rem i = ([], RetryOut.noReply) := by
  intro rem
  induction rem with
  | zero => intro i; rfl
  | succ rem ih =>
    intro i
    simp only [retryLoop, h i]
    exact ih (i + 1)

/-- Counting invariant of the Formatter iteration: on a non-error
completion the returned integer equals the varbinds written (those
before this state plus those in its output), and a completion with zero
varbinds written produces exactly the fixed `NONE` token. -/
theorem grGo_count (root ty : FmtDa) :
    ∀ (head : List FmtVP) (parentP oidAcc : List Nat) (tb : String) (tl written : Nat),
      0 ≤ (grGo root ty head parentP oidAcc tb tl written).2 →
        (grGo root ty head parentP oidAcc tb tl written).2
            = Int.ofNat (written + countVb (grGo root ty head parentP oidAcc tb tl written).1)
          ∧ (written + countVb (grGo root ty head parentP oidAcc tb tl written).1 = 0 →
              (grGo root ty head parentP oidAcc tb tl written).1 = [FmtOut.line "NONE"]) := by
  intro head
  induction head with
  | nil =>
    intro parentP oidAcc tb tl written _
    by_cases hw : written = 0
    · subst hw
      simp [grGo, countVb]
    · simp [grGo, hw, countVb]
  | cons vp rest ih =>
    intro parentP oidAcc tb tl written hret
    simp only [grGo] at hret ⊢
    by_cases h1 : vp.da = ty
    · rw [if_pos h1] at hret ⊢
      exact ih _ _ _ _ _ hret
    · rw [if_neg h1] at hret ⊢
      by_cases h2 : listIsAncestor root.path vp.da.path = true
      · rw [if_neg (not_not_intro h2)] at hret ⊢
        by_cases h3 : listIsAncestor parentP vp.da.path = true
        · rw [if_neg (not_not_intro h3)] at hret ⊢
          by_cases h4 : vp.da.attrOf = 0
          · rw [if_pos h4] at hret ⊢
            by_cases h5 : vp.da.ptype = PWType.integer
            · rw [if_neg (not_not_intro h5)] at hret ⊢
              exact ih _ _ _ _ _ hret
            · rw [if_pos h5] at hret
              exact absurd hret (by decide)
          · rw [if_neg h4] at hret ⊢
            by_cases h6 : tl = 0
            · rw [if_pos h6] at hret
              exact absurd hret (by decide)
            · rw [if_neg h6] at hret ⊢
              cases hlv : fmtLeafValue vp with
              | none =>
                rw [hlv] at hret
                dsimp only at hret
                exact absurd hret (by decide)
              | some v =>
                rw [hlv] at hret
                dsimp only at hret ⊢
                obtain ⟨hs, _⟩ := ih root.path [] "" tl (written + 1) hret
                refine ⟨?_, ?_⟩
                · rw [hs]
                  simp only [countVb]
                  congr 1
                  omega
                · intro hzero
                  exfalso
                  simp only [countVb] at hzero
                  omega
        · rw [if_pos h3] at hret
          exact absurd hret (by decide)
      · rw [if_pos h2] at hret ⊢
        exact ih _ _ _ _ _ hret

/-- Per-allocation evolution of the wrapping request id. -/
theorem allocIter_last (n : Nat) :
    ∀ c : Conf, c.last_used_id < 256 →
      (allocIter n c).last_used_id = (c.last_used_id + n) % 256 := by
  induction n with
  | zero =>
    intro c hc
    simp [allocIter, Nat.mod_eq_of_lt hc]
  | succ n ih =>
    intro c hc
    have hstep : (radsnmp_alloc c).2.last_used_id = (c.last_used_id + 1) % 256 := rfl
    have hlt : (radsnmp_alloc c).2.last_used_id < 256 := by
      rw [hstep]; exact Nat.mod_lt _ (by omega)
    calc (allocIter (n + 1) c).last_used_id
        = (allocIter n (radsnmp_alloc c).2).last_used_id := rfl
      _ = ((radsnmp_alloc c).2.last_used_id + n) % 256 := ih _ hlt
      _ = ((c.last_used_id + 1) % 256 + n) % 256 := by rw [hstep]
      _ = (c.last_used_id + 1 + n) % 256 := Nat.mod_add_mod _ _ _
      _ = (c.last_used_id + (n + 1)) % 256 := by ring_nf

/-! ## Claim theorems -/

/-- C2: when a numeric path component fails direct child resolution, the
Path Codec emits an Index value and descends exactly when the current
node has a numeric-id-0 child of Integer kind and a numeric-id-1 child
of Group (tlv) kind; the emitted Index value carries the index-attribute
node and the numeric component just consumed, and each of the four ways
the requirement can fail (missing id-0 child, id-0 child not Integer,
missing id-1 child, id-1 child not Group) is a parse error with its own
distinct cause, at the resolver's failure offset. -/
theorem C2_index_wellformed (parent : DictAttr) (comps : List Nat)
    (p : DictAttr) (a : Nat) (rest : List Nat) (pos : Nat)
    (hfail : fr_dict_attr_by_oid parent comps = ByOidRes.fail p a rest pos) :
    (∀ idxA entry, fr_dict_attr_child_by_num p 0 = some idxA →
       idxA.ptypeOf = PWType.integer →
       fr_dict_attr_child_by_num p 1 = some entry →
       entry.ptypeOf = PWType.tlv →
       oidLoop parent comps
         = (oidLoop entry rest).map
             (fun r => (⟨idxA, VpValue.vInteger a⟩ :: r.1, r.2)))
  ∧ (fr_dict_attr_child_by_num p 0 = none →
       oidLoop parent comps = .error ⟨CodecCause.noIndexAttr, pos⟩)
  ∧ (∀ idxA, fr_dict_attr_child_by_num p 0 = some idxA →
       idxA.ptypeOf ≠ PWType.integer →
       oidLoop parent comps = .error ⟨CodecCause.indexNotInteger, pos⟩)
  ∧ (∀ idxA, fr_dict_attr_child_by_num p 0 = some idxA →
       idxA.ptypeOf = PWType.integer →
       fr_dict_attr_child_by_num p 1 = none →
       oidLoop parent comps = .error ⟨CodecCause.noEntryAttr, pos⟩)
  ∧ (∀ idxA entry, fr_dict_attr_child_by_num p 0 = some idxA →
       idxA.ptypeOf = PWType.integer →
       fr_dict_attr_child_by_num p 1 = some entry →
       entry.ptypeOf ≠ PWType.tlv →
       oidLoop parent comps = .error ⟨CodecCause.entryNotTlv, pos⟩) := by
  have hrest : rest.length < comps.length :=
    by_oid_fail_rest_length comps parent p a rest pos hfail
  refine ⟨?_, ?_, ?_, ?_, ?_⟩
  · intro idxA entry hc0 hint hc1 htlv
    show oidLoopF (comps.length + 1) parent comps = _
    rw [oidLoopF, hfail]
    simp only [hc0, hc1]
    rw [if_neg (by simp [hint]), if_neg (by simp [htlv])]
    rw [← oidLoop_eq_oidLoopF comps.length entry rest hrest]
    cases h2 : oidLoop entry rest with
    | error e => rfl
    | ok val =>
      obtain ⟨vps, p2, a2, c2⟩ := val
      rfl
  · intro hc0
    show oidLoopF (comps.length + 1) parent comps = _
    rw [oidLoopF, hfail]
    simp only [hc0]
  · intro idxA hc0 hint
    show oidLoopF (comps.length + 1) parent comps = _
    rw [oidLoopF, hfail]
    simp only [hc0]
    rw [if_pos hint]
  · intro idxA hc0 hint hc1
    show oidLoopF (comps.length + 1) parent comps = _
    rw [oidLoopF, hfail]
    simp only [hc0, hc1]
    rw [if_neg (by simp [hint])]
  · intro idxA entry hc0 hint hc1 htlv
    show oidLoopF (comps.length + 1) parent comps = _
    rw [oidLoopF, hfail]
    simp only [hc0, hc1]
    rw [if_neg (by simp [hint]), if_pos htlv]

/-- Witness for C2: in `dictTableTree` the path `7.5.2` fails resolution
at component `5` under the table group, which has an Integer id-0 child
and a tlv id-1 child, so the loop emits the Index value `5` tagged with
the id-0 child and descends into the entry. -/
theorem C2_index_wellformed_witness :
    oidLoop dictTableTree [7, 5, 2]
      = (oidLoop (DictAttr.mk 1 PWType.tlv []) [2]).map
          (fun r => (⟨DictAttr.mk 0 PWType.integer [], VpValue.vInteger 5⟩ :: r.1, r.2)) :=
  (C2_index_wellformed dictTableTree [7, 5, 2]
      (DictAttr.mk 7 PWType.tlv [DictAttr.mk 0 PWType.integer [], DictAttr.mk 1 PWType.tlv []])
      5 [2] 1 (by rfl)).1
    (DictAttr.mk 0 PWType.integer []) (DictAttr.mk 1 PWType.tlv [])
    (by rfl) (by rfl) (by rfl) (by rfl)

/-- C4: once the candidate leaf pair `(parent, attr)` is established with
`attr = 0`, the terminal Leaf value is built on `parent` itself (the
leaf-zero convention, radsnmp.c lines 281-283); and whenever the chosen
leaf node is of Group (tlv) kind the codec returns a non-positive parse
error and appends no Leaf value (lines 285-288). -/
theorem C4_leaf_selection (cursorIn : List VP) (parent : DictAttr) (oid : List Nat)
    (idxVps : List VP) (p : DictAttr) (attr consumed : Nat)
    (hok : oidLoop parent oid = .ok (idxVps, p, attr, consumed)) :
    (attr = 0 → p.ptypeOf ≠ PWType.tlv →
       radsnmp_pair_from_oid cursorIn parent oid none
         = (cursorIn ++ idxVps ++ [⟨p, pairPlaceholder p.ptypeOf⟩], Int.ofNat consumed))
  ∧ (∀ da, snmpLeafDa p attr = some da → da.ptypeOf = PWType.tlv →
       ∀ value, radsnmp_pair_from_oid cursorIn parent oid value
           = (cursorIn ++ idxVps, -(Int.ofNat consumed))
         ∧ (radsnmp_pair_from_oid cursorIn parent oid value).2 ≤ 0) := by
  constructor
  · intro h0 hnt
    have hda : snmpLeafDa p attr = some p := by
      rw [snmpLeafDa, if_neg (by simp [h0])]
    simp only [radsnmp_pair_from_oid, hok, hda, if_neg hnt]
  · intro da hda htlv value
    have heq : radsnmp_pair_from_oid cursorIn parent oid value
        = (cursorIn ++ idxVps, -(Int.ofNat consumed)) := by
      simp only [radsnmp_pair_from_oid, hok, hda, if_pos htlv]
    refine ⟨heq, ?_⟩
    rw [heq]
    exact Int.neg_nonpos_of_nonneg (Int.ofNat_nonneg _)

/-- Witness for C4: decoding `1.0` in `dictGetTree` resolves the
candidate pair to the Integer node 1 with final component 0, and the
Leaf value is built on that node itself. -/
theorem C4_leaf_selection_witness :
    radsnmp_pair_from_oid [] dictGetTree [1, 0] none
      = ([] ++ [] ++ [⟨DictAttr.mk 1 PWType.integer [],
            pairPlaceholder (DictAttr.mk 1 PWType.integer []).ptypeOf⟩], Int.ofNat 2) :=
  (C4_leaf_selection [] dictGetTree [1, 0] [] (DictAttr.mk 1 PWType.integer []) 0 2
      (by rfl)).1 rfl (by decide)

/-- C7: the read-mode placeholders are kind-appropriate (conjuncts 3 and
4: one zero byte for a String leaf, zero value for an Integer leaf), but
in write mode a value-string parse failure does *not* return a parse
error: conjuncts 1 and 2 evaluate the codec on an Integer leaf with the
unparsable value string "abc" — `fr_pair_value_from_str` fails, the code
takes `goto error`, which frees the inserted values, yet returns the
stale positive `slen = 1`, so the caller treats the command as
successfully parsed with an empty value set (radsnmp.c lines 263-267 and
316 against the function's own contract, lines 180-182: "<=0 on
failure"). -/
theorem C7_value_parse_positive_return :
    radsnmp_pair_from_oid [] dictGetTree [1] (some "abc") = ([], 1)
  ∧ fr_pair_value_from_str PWType.integer "abc" = none
  ∧ radsnmp_pair_from_oid [] dictGetTree [1] none
      = ([⟨DictAttr.mk 1 PWType.integer [], VpValue.vInteger 0⟩], 1)
  ∧ radsnmp_pair_from_oid [] dictStrTree [2] none
      = ([⟨DictAttr.mk 2 PWType.string [], VpValue.vString [0]⟩], 1) :=
  ⟨rfl, rfl, rfl, rfl⟩

/-- C10 counterexample: decoding `7.5.2` in `dictTableTree` inserts the
Index value for component 5, then fails with "Unknown leaf attribute 2"
(a negative return), and the Index value remains in the caller's value
set — the claim says the value set is unchanged on every error return. -/
theorem C10_leftover_index_counterexample :
    radsnmp_pair_from_oid [] dictTableTree [7, 5, 2] none
      = ([⟨DictAttr.mk 0 PWType.integer [], VpValue.vInteger 5⟩], -1) := rfl

/-- C10 (amended): the cleanup depends on which phase fails.  Errors from
the OID-resolution/index-discovery loop go through the `error` label that
frees the inserted values, so the caller's value set is unchanged and the
result is non-positive (conjunct 1); but the leaf-phase errors — unknown
leaf attribute (conjunct 2) and group-kind leaf (conjunct 3) — return
`-(slen)` without freeing, leaving the inserted Index values appended;
and a value-parse failure (conjunct 4) frees the inserted values but
returns the stale positive `slen`. -/
theorem C10_error_cleanup (cursorIn : List VP) (parent : DictAttr)
    (oid : List Nat) (value : Option String) :
    (∀ e, oidLoop parent oid = .error e →
       radsnmp_pair_from_oid cursorIn parent oid value = (cursorIn, errSlen e)
         ∧ errSlen e ≤ 0)
  ∧ (∀ idxVps p attr consumed, oidLoop parent oid = .ok (idxVps, p, attr, consumed) →
       snmpLeafDa p attr = none →
       radsnmp_pair_from_oid cursorIn parent oid value
         = (cursorIn ++ idxVps, -(Int.ofNat consumed)))
  ∧ (∀ idxVps p attr consumed da, oidLoop parent oid = .ok (idxVps, p, attr, consumed) →
       snmpLeafDa p attr = some da → da.ptypeOf = PWType.tlv →
       radsnmp_pair_from_oid cursorIn parent oid value
         = (cursorIn ++ idxVps, -(Int.ofNat consumed)))
  ∧ (∀ idxVps p attr consumed da v, oidLoop parent oid = .ok (idxVps, p, attr, consumed) →
       snmpLeafDa p attr = some da → da.ptypeOf ≠ PWType.tlv →
       value = some v → fr_pair_value_from_str da.ptypeOf v = none →
       radsnmp_pair_from_oid cursorIn parent oid value = (cursorIn, Int.ofNat consumed)) := by
  refine ⟨?_, ?_, ?_, ?_⟩
  · intro e he
    constructor
    · simp only [radsnmp_pair_from_oid, he]
    · rw [errSlen]
      exact Int.neg_nonpos_of_nonneg (Int.ofNat_nonneg _)
  · intro idxVps p attr consumed hok hda
    simp only [radsnmp_pair_from_oid, hok, hda]
  · intro idxVps p attr consumed da hok hda htlv
    simp only [radsnmp_pair_from_oid, hok, hda, if_pos htlv]
  · intro idxVps p attr consumed da v hok hda hnt hv hparse
    simp only [radsnmp_pair_from_oid, hok, hda, hv, if_neg hnt, hparse]

/-- Witness for C10 (amended): the empty path is a resolution-loop error,
and the caller's value set comes back unchanged with a non-positive
result. -/
theorem C10_error_cleanup_witness :
    radsnmp_pair_from_oid [] dictGetTree [] none
        = ([], errSlen ⟨CodecCause.badOidComponent, 0⟩)
      ∧ errSlen ⟨CodecCause.badOidComponent, 0⟩ ≤ 0 :=
  (C10_error_cleanup [] dictGetTree [] none).1 ⟨CodecCause.badOidComponent, 0⟩ (by rfl)

/-- C1: evaluation of the Session Loop on the script
`get`, `1.0`, `get`, `1.0` over a dictionary in which `1.0` decodes
successfully.  Instead of appending the operation-kind and
integrity-placeholder values, performing the exchange, writing the
reply, and reading the next command, the loop hits the unconditional
`break` at radsnmp.c line 661 immediately after the successful parse:
it returns exit status 0 with *no* control-channel output, leaving the
second command unread — the loop exits although the command line was
non-empty and stop was never requested.  (The `stop` flag stays false
throughout this run; the spec's §9 design note identifies this `break`
as a latent defect, and the code after it — lines 663-812, including its
own comments "Now add an attribute indicating what the SNMP operation
was" — is plainly meant to run.) -/
theorem C1_break_skips_exchange :
    radsnmp_send_recv dictGetTree ⟨0, 5⟩ ["get", "1.0", "get", "1.0"]
      = ⟨0, [], ["get", "1.0"], ⟨1, 5⟩⟩ := by decide

/-- C3 counterexample: with every attempt timing out, the exchange block
returns `EXIT_FAILURE` having written nothing at all — no `NONE` token
is written and the session loop does not continue, contradicting the
claim that a timeout exhausting all retries is recoverable. -/
theorem C3_timeout_counterexample :
    radsnmp_exchange sampleRoot sampleType sampleErr RadsnmpCommand.get 5
        (fun _ => Attempt.timeout) = ([], ExchangeOutcome.fatalExit) := rfl

/-- C3 (amended): whenever the reply timeout exhausts all retry
attempts, the exchange block terminates the process with `EXIT_FAILURE`
("Server didn't respond", radsnmp.c lines 764-767); it writes nothing to
the control channel and the loop does not continue — the timeout path is
fatal, not recoverable. -/
theorem C3_timeout_exhaustion_fatal (root ty errA : FmtDa) (cmd : RadsnmpCommand)
    (retries : Nat) (attempts : Nat → Attempt)
    (h : ∀ i, attempts i = Attempt.timeout) :
    radsnmp_exchange root ty errA cmd retries attempts
      = ([], ExchangeOutcome.fatalExit) := by
  rw [radsnmp_exchange, retryLoop_all_timeout attempts h retries 0]

/-- Witness for C3 (amended) at two retries. -/
theorem C3_timeout_exhaustion_fatal_witness :
    radsnmp_exchange sampleRoot sampleType sampleErr RadsnmpCommand.getnext 2
        (fun _ => Attempt.timeout) = ([], ExchangeOutcome.fatalExit) :=
  C3_timeout_exhaustion_fatal sampleRoot sampleType sampleErr RadsnmpCommand.getnext 2
    (fun _ => Attempt.timeout) (fun _ => rfl)

/-- C5 counterexample: a reply that makes the Varbind Formatter fail
with the out-of-order error leads the exchange block to return
`EXIT_FAILURE` with no `NONE` token written — formatter errors terminate
the process (radsnmp.c lines 783-786) instead of being recoverable. -/
theorem C5_formatter_error_counterexample :
    radsnmp_exchange sampleRoot sampleType sampleErr RadsnmpCommand.get 5
        (fun _ => Attempt.reply outOfOrderReply) = ([], ExchangeOutcome.fatalExit) := rfl

/-- C5 (amended): every error the Varbind Formatter reports (result
`-1`) is fatal to the session: the exchange block keeps whatever output
was already written and terminates the process with `EXIT_FAILURE`; no
`NONE` token is produced for the error and the loop does not continue. -/
theorem C5_formatter_error_fatal (root ty errA : FmtDa) (retries : Nat)
    (attempts : Nat → Attempt) (evs : List FmtOut) (vps : List FmtVP)
    (outs : List FmtOut)
    (hret : retryLoop attempts retries 0 = (evs, RetryOut.got vps))
    (hfmt : radsnmp_get_response root ty vps = (outs, -1)) :
    radsnmp_exchange root ty errA RadsnmpCommand.get retries attempts
      = (evs ++ outs, ExchangeOutcome.fatalExit) := by
  rw [radsnmp_exchange, hret]
  simp only [hfmt, if_true]

/-- Witness for C5 (amended) on the out-of-order reply. -/
theorem C5_formatter_error_fatal_witness :
    radsnmp_exchange sampleRoot sampleType sampleErr RadsnmpCommand.get 1
        (fun _ => Attempt.reply outOfOrderReply)
      = ([] ++ [], ExchangeOutcome.fatalExit) :=
  C5_formatter_error_fatal sampleRoot sampleType sampleErr 1
    (fun _ => Attempt.reply outOfOrderReply) [] outOfOrderReply [] rfl rfl

/-- C6: at any state of the Formatter iteration, a value rooted under
the formatter's root but not a descendant of the current parent cursor
stops the iteration with the fatal out-of-order error (result `-1`),
emitting no varbind for it or for any later value (radsnmp.c lines
389-400).  The hypothesis that the out-of-band type node is not beneath
the root matches the code's own documented placement of the type pair
("Not beneath root, at same level as root", line 379), so the value
cannot be the skipped type marker. -/
theorem C6_out_of_order_fatal (root ty : FmtDa) (vp : FmtVP) (rest : List FmtVP)
    (parentP oidAcc : List Nat) (tb : String) (tl written : Nat)
    (hty : listIsAncestor root.path ty.path = false)
    (hroot : listIsAncestor root.path vp.da.path = true)
    (hpar : listIsAncestor parentP vp.da.path = false) :
    grGo root ty (vp :: rest) parentP oidAcc tb tl written = ([], -1) := by
  have hne : ¬ (vp.da = ty) := by
    intro he
    rw [he] at hroot
    rw [hroot] at hty
    cases hty
  rw [grGo, if_neg hne, if_neg (by simp [hroot]), if_pos (by simp [hpar])]

/-- Witness for C6: with the parent cursor at `[1, 3]`, a value at
`[1, 4, 2]` (under the root `[1]` but not under the cursor) is the fatal
out-of-order error. -/
theorem C6_out_of_order_fatal_witness :
    grGo sampleRoot sampleType [⟨⟨[1, 4, 2], PWType.integer⟩, FmtVal.fInt 7⟩]
        [1, 3] [] "" 0 0 = ([], -1) :=
  C6_out_of_order_fatal sampleRoot sampleType ⟨⟨[1, 4, 2], PWType.integer⟩, FmtVal.fInt 7⟩
    [] [1, 3] [] "" 0 0 rfl rfl rfl

/-- C8: whenever the Varbind Formatter completes without a fatal error
(non-negative result) having written zero varbinds — the empty reply
list included — its output is exactly the fixed `NONE` token and the
returned count is 0, which is not the error result (radsnmp.c lines
505-510). -/
theorem C8_zero_varbinds_none (root ty : FmtDa) (head : List FmtVP)
    (hret : 0 ≤ (radsnmp_get_response root ty head).2)
    (hvb : countVb (radsnmp_get_response root ty head).1 = 0) :
    radsnmp_get_response root ty head = ([FmtOut.line "NONE"], 0) := by
  simp only [radsnmp_get_response] at hret hvb ⊢
  obtain ⟨hs, hf⟩ := grGo_count root ty head root.path [] "" 0 0 hret
  have hfst := hf (by simpa using hvb)
  have hsnd : (grGo root ty head root.path [] "" 0 0).2 = 0 := by
    rw [hs, hvb]
    rfl
  rw [Prod.ext_iff]
  exact ⟨hfst, hsnd⟩

/-- Witness for C8 at the empty reply list. -/
theorem C8_zero_varbinds_none_witness :
    radsnmp_get_response sampleRoot sampleType [] = ([FmtOut.line "NONE"], 0) :=
  C8_zero_varbinds_none sampleRoot sampleType [] (by decide) (by decide)

/-- C9 counterexample: a `PING` command performs no exchange with the
backend, yet the request allocated at the top of the loop iteration
advances the request-id counter; after `PING` and the terminating empty
command the counter has moved from 0 to 2 while the only output was
`PONG` and no exchange took place — so operations other than outbound
exchanges do change the identifier. -/
theorem C9_ping_increments_counterexample :
    (radsnmp_send_recv dictGetTree ⟨0, 5⟩ ["PING", ""]).conf.last_used_id = 2
      ∧ (radsnmp_send_recv dictGetTree ⟨0, 5⟩ ["PING", ""]).events
          = [FmtOut.line "PONG"] := by
  constructor <;> decide

/-- C9 (amended): the 1-byte request identifier advances, wrapping mod
256, exactly once per *request allocation* — `radsnmp_alloc` is called
once at the top of every loop iteration, including iterations (PING,
unknown commands, parse failures, the final empty command) that perform
no exchange — the allocated request takes the pre-increment value, the
retry limit is untouched, and after 256 allocations the identifier
returns to its starting value. -/
theorem C9_request_id_wrap :
    (∀ c : Conf, (radsnmp_alloc c).1.id = c.last_used_id
        ∧ (radsnmp_alloc c).2.last_used_id = (c.last_used_id + 1) % 256
        ∧ (radsnmp_alloc c).2.retries = c.retries)
  ∧ (∀ c : Conf, c.last_used_id < 256 →
        (allocIter 256 c).last_used_id = c.last_used_id) := by
  constructor
  · intro c
    exact ⟨rfl, rfl, rfl⟩
  · intro c hc
    rw [allocIter_last 256 c hc, Nat.add_mod_right]
    exact Nat.mod_eq_of_lt hc

/-- Witness for C9 (amended): starting from identifier 0, 256
allocations return to 0. -/
theorem C9_request_id_wrap_witness :
    (allocIter 256 ⟨0, 5⟩).last_used_id = 0 :=
  C9_request_id_wrap.2 ⟨0, 5⟩ (by decide)

end Radsnmp
